import Mathlib

/-!
Verification development for the Idle Transaction Activity & Heartbeat Engine
(`src/unnamed/part_000` of the repository: `IdleTransactionSpanRecorder` and
`IdleTransaction`).

Embedding conventions:

* Timestamps are rationals (`ℚ`), matching the seconds-with-fractional-
  milliseconds clock `timestampWithMs`; durations such as `_idleTimeout` are in
  milliseconds, and the source's `timeout / 1000` conversion is kept literally.
* The single-threaded cooperative scheduler is made explicit: every operation
  that calls `setTimeout` returns, next to the updated state, the list of newly
  scheduled timer callbacks (`Sched`).  `clearTimeout(this._heartbeatTimer)` at
  the top of `_beat` cancels the very timer that invoked the beat (the class
  keeps at most one outstanding heartbeat timer), so it has no further effect
  in the model.
* `logger.log` has no effect on engine state; only the top-level messages of
  `_finishIdleTransaction` and `_beat` are recorded in the `log` field (the
  per-span messages of the reconciliation filter, which carry a JSON dump of
  the span, are omitted).
* Method references (`this._popActivity`, `this._pushActivity` on source line
  175) are passed **unbound** (the suppressed `tslint: no-unbound-method` on
  line 174 marks it) and are named by the `ActCallback` enumeration; the
  *positional order* in which line 175 passes them to the
  `IdleTransactionSpanRecorder` constructor is preserved exactly.  Invoking a
  stored callback through a recorder field runs the method body with `this` =
  the recorder, whose `_activities` is undefined, so the invocation throws a
  TypeError (`Abort.typeError`) before any state change.
* The source mutates an added span's `finish` property in place (lines 28-33);
  the slot is modelled by the `finishImpl` field of a span — and by the
  `finishSlot` field of the transaction, since the span object added at line
  177 *is* the transaction — and calling the slot is modelled by the
  fuel-indexed evaluator `invokeSpanFinish`, which re-reads the slot at call
  time exactly as a JavaScript property lookup does.  `this.finish()` on line
  133 therefore dispatches on the transaction's own slot (`callTxnFinish`):
  the (spec-modelled) base `Transaction.finish` while the slot still holds the
  prototype method, and a stack-overflow abort (`Abort.stackOverflow`) once
  `add(this)` has rebound it to the self-recursive wrapper.
* Exceptions and the stack overflow abort the current synchronous run:
  operations return, next to the state mutated so far, an `Option Abort`;
  statements after an aborting call (such as lines 90 and 92 of `_beat` after
  an abort inside line 88) do not run, and an aborted timer callback
  schedules nothing further.
* Code of this repository that is not under `src/` (the base `Transaction`,
  `Span` and `SpanRecorder` classes) is modelled from the spec; each such
  definition carries a doc comment starting with `Modelled from the spec:`.
-/

namespace IdleTracing

/-- Span status enumeration (`SpanStatus`); the engine uses `Ok`, `Cancelled`
and `DeadlineExceeded`. -/
inductive SpanStatus where
  | Ok
  | Cancelled
  | DeadlineExceeded
  | InternalError
  deriving DecidableEq, Repr

/-- The value held by a span's `finish` property slot: either the original
method of the base class, or the wrapper installed by
`IdleTransactionSpanRecorder.add` (source lines 28-33). -/
inductive FinishImpl where
  | original
  | idleWrapper
  deriving DecidableEq, Repr

/-- Data of one recorded span (`Span`): identity, timing, status, and the
current value of its `finish` property slot. -/
structure SpanData where
  spanId : String
  startTimestamp : ℚ
  endTimestamp : Option ℚ
  status : Option SpanStatus
  finishImpl : FinishImpl
  deriving DecidableEq, Repr

/-- The two activity callbacks of the owning `IdleTransaction` that an
`IdleTransactionSpanRecorder` can hold: `_pushActivity` (source lines 143-145)
and `_popActivity` (source lines 151-167). -/
inductive ActCallback where
  | pushA
  | popA
  deriving DecidableEq, Repr

/-- State of an `IdleTransactionSpanRecorder`: the capacity bound of the base
class, the two optional callback fields `_pushActivity` and `_popActivity` of
the subclass (source lines 15-22), and the recorded spans. -/
structure IdleRecorder where
  maxlen : Option Nat
  pushActivityCb : Option ActCallback
  popActivityCb : Option ActCallback
  spans : List SpanData
  deriving DecidableEq, Repr

/-- State of an `IdleTransaction` (source lines 45-64): the transaction's own
span fields including its own `finish` property slot (`finishSlot`, rebound to
the wrapper by `add(this)` at line 177), `_idleTimeout` (milliseconds),
`_activities` (a JavaScript object used as a set, modelled as its
insertion-ordered key list), the heartbeat bookkeeping `_prevHeartbeatString`
and `_heartbeatCounter`, the optional span recorder, the number of times the
underlying finish/emit sink has been invoked, and the log. -/
structure Txn where
  spanId : String
  startTimestamp : ℚ
  endTimestamp : Option ℚ
  status : Option SpanStatus
  finishSlot : FinishImpl
  tags : List (String × String)
  idleTimeout : ℚ
  activities : List String
  prevHeartbeatString : Option String
  heartbeatCounter : Nat
  spanRecorder : Option IdleRecorder
  emitted : Nat
  log : List String
  deriving DecidableEq, Repr

/-- A timer callback scheduled with `setTimeout`: either the heartbeat `_beat`
(source lines 99-101) or the deferred `_finishIdleTransaction end` of
`_popActivity` (source lines 163-165). -/
inductive Task where
  | beat
  | idleFinish (endTs : ℚ)
  deriving DecidableEq, Repr

/-- A scheduled timer: the callback plus its delay in milliseconds. -/
structure Sched where
  task : Task
  delayMs : ℚ
  deriving DecidableEq, Repr

/-- Abnormal end of a synchronous run: `typeError` is the TypeError thrown
when an unbound activity callback dereferences `this._activities` on the
recorder (source lines 31 and 37 invoking lines 144 and 152 with the wrong
receiver); `stackOverflow` is the host aborting the unbounded recursion of a
rebound `finish` slot calling itself (source lines 28-29).  An abort
propagates: the statements after the aborting call do not run. -/
inductive Abort where
  | typeError
  | stackOverflow
  deriving DecidableEq, Repr

/-- JavaScript truth test `!span.endTimestamp` on a `number | undefined`
value: `undefined` and `0` are falsy (source line 116 treats both as "no end
timestamp yet"). -/
def jsFalsyNum : Option ℚ → Bool
  | none => true
  | some x => decide (x = 0)

/-- Modelled from the spec: `setTag` of the base `Span` class (not under
`src/`) updates the free-form attribute map, replacing any previous value for
the key. -/
def setTagOn (k v : String) (tags : List (String × String)) :
    List (String × String) :=
  tags.filter (fun p => p.1 ≠ k) ++ [(k, v)]

/-- Modelled from the spec: `finish` of the base `Transaction` class (not
under `src/`), the underlying finish/emit path.  It fixes the transaction's
own end time to the supplied timestamp — the current clock value when none is
supplied — and hands the transaction to the delivery sink; per spec section 6
the sink itself performs no deduplication ("this call must be invocable
exactly once per transaction instance" is the engine's obligation), so each
invocation is counted in `emitted`. -/
def transactionFinish (now : ℚ) (endTimestamp : Option ℚ) (t : Txn) : Txn :=
  { t with endTimestamp := some (endTimestamp.getD now),
           emitted := t.emitted + 1 }

/-- Modelled from the spec: `finish` of the base `Span` class (not under
`src/`): sets the span's end time to the supplied timestamp, or the current
clock value when none is supplied. -/
def spanFinishOriginal (now : ℚ) (endTimestamp : Option ℚ) (s : SpanData) :
    SpanData :=
  { s with endTimestamp := some (endTimestamp.getD now) }

/-- Modelled from the spec: `add` of the base `SpanRecorder` class (not under
`src/`): appends the span; on capacity overflow the oldest entries beyond the
bound are silently dropped. -/
def baseRecorderAdd (maxlen : Option Nat) (spans : List SpanData)
    (s : SpanData) : List SpanData :=
  let l := spans ++ [s]
  match maxlen with
  | none => l
  | some m => l.drop (l.length - m)

/-- The heartbeat signature of source line 74:
`keys.reduce((prev, current) => prev + current)` — string concatenation of the
activity keys.  JavaScript `reduce` without an initial value starts from the
first element; on the (guarded) nonempty lists this equals the fold from the
empty string. -/
def heartbeatString (keys : List String) : String :=
  keys.foldl (fun p c => p ++ c) ""

/-- The cancellation mutation of source lines 117-118: set the end timestamp
and mark the span `Cancelled`. -/
def cancelSpan (T : ℚ) (s : SpanData) : SpanData :=
  { s with endTimestamp := some T, status := some SpanStatus.Cancelled }

/-- One visit of the reconciliation filter of `_finishIdleTransaction`
(source lines 109-130) to one span: returns the (possibly mutated) span and
the `keepSpan` decision. -/
def reconcileSpan (txnId : String) (T : ℚ) (s : SpanData) : SpanData × Bool :=
  if s.spanId = txnId then
    (s, true)
  else
    let s1 := if jsFalsyNum s.endTimestamp then cancelSpan T s else s
    (s1, decide (s1.startTimestamp < T))

/-- The whole reconciliation pass of source lines 109-130: every span is
visited in order (and possibly mutated in place); the spans with a negative
`keepSpan` decision are removed from the recorder. -/
def reconcile (txnId : String) (T : ℚ) (spans : List SpanData) :
    List SpanData :=
  (spans.map (reconcileSpan txnId T)).filterMap
    (fun p => if p.2 then some p.1 else none)

/-- Calling `this.finish(...)` on the transaction object: a property lookup
on the transaction's own `finish` slot.  While the slot still holds the
prototype method, the (spec-modelled) base finish runs.  Once `add(this)`
(source line 177, through lines 28-33) has rebound the slot to the wrapper,
the call re-reads the slot, finds the wrapper itself, and recurses without
bound — `invokeSpanFinish` proves that divergence for every fuel — so the
host aborts the run with a stack overflow before any state change. -/
def callTxnFinish (now : ℚ) (endTimestamp : Option ℚ) (t : Txn) :
    Txn × Option Abort :=
  match t.finishSlot with
  | FinishImpl.original => (transactionFinish now endTimestamp t, none)
  | FinishImpl.idleWrapper => (t, some Abort.stackOverflow)

/-- `IdleTransaction._finishIdleTransaction` (source lines 107-137): with a
span recorder present, reconcile the recorded spans against `endTimestamp`
(lines 109-130, which complete first), log, and call `this.finish()` — with
**no** argument (line 133), and through the transaction's own `finish` slot,
which `initSpanRecorder` has rebound to the self-recursive wrapper, so this
call aborts whenever the recorder was initialized through `initSpanRecorder`;
with no recorder, only log and return normally. -/
def finishIdleTransaction (now : ℚ) (endTimestamp : ℚ) (t : Txn) :
    Txn × Option Abort :=
  match t.spanRecorder with
  | some r =>
      callTxnFinish now none
        { t with
          spanRecorder :=
            some { r with spans := reconcile t.spanId endTimestamp r.spans },
          log := t.log ++ ["[Tracing] flushing IdleTransaction"] }
  | none =>
      ({ t with log := t.log ++ ["[Tracing] No active IdleTransaction"] },
       none)

/-- `IdleTransaction._pushActivity` (source lines 143-145):
`this._activities[spanId] = true` — a fresh key is appended in insertion
order, an existing key is left in place. -/
def pushActivity (id : String) (t : Txn) : Txn :=
  if t.activities.contains id then t
  else { t with activities := t.activities ++ [id] }

/-- The removal step of `IdleTransaction._popActivity` (source lines
152-155): `if (this._activities[spanId]) delete this._activities[spanId]` —
the key, when present, is removed (keys of a JavaScript object are unique, so
deleting the key is removing every occurrence from the key list). -/
def popActivityRemove (id : String) (t : Txn) : Txn :=
  if t.activities.contains id then
    { t with activities := t.activities.filter (fun a => a ≠ id) }
  else t

/-- `IdleTransaction._popActivity` (source lines 151-167): delete the key if
present; then, whenever the set is empty after the call, schedule
`_finishIdleTransaction (now + timeout / 1000)` to run after `timeout`
milliseconds.  The scheduling decision depends only on the resulting count. -/
def popActivity (now : ℚ) (id : String) (t : Txn) : Txn × List Sched :=
  let t1 := popActivityRemove id t
  if t1.activities.isEmpty then
    (t1, [⟨Task.idleFinish (now + t.idleTimeout / 1000), t.idleTimeout⟩])
  else
    (t1, [])

/-- Invocation of a stored activity callback through a recorder field
(`this._popActivity(span.spanId)` on line 31, `this._pushActivity(span.spanId)`
on line 37).  The fields hold **unbound** method references (line 175 passes
`this._popActivity` and `this._pushActivity` bare, with
`tslint: no-unbound-method` suppressed on line 174), so the invocation runs
the method body with `this` = the recorder.  The recorder has no `_activities`
field, and both bodies start by dereferencing `this._activities[spanId]`
(line 144 for `_pushActivity`, line 152 for `_popActivity`), so either
invocation throws a TypeError before any state change and schedules
nothing. -/
def invokeRecorderCallback (cb : ActCallback) (_id : String) (t : Txn) :
    Txn × List Sched × Option Abort :=
  match cb with
  | ActCallback.pushA => (t, [], some Abort.typeError)
  | ActCallback.popA => (t, [], some Abort.typeError)

/-- The heartbeat-stall log message of source lines 81-85 (the source
interpolates `SpanStatus.Cancelled` into the text; the JSON payload and the
apostrophe of the original wording are not reproduced). -/
def stallLogMsg : String :=
  "[Tracing] Transaction: cancelled -> Heartbeat safeguard kicked in since content has not changed for 3 beats"

/-- The stall marking of source lines 81-87, which run before the finalize
call: log the safeguard message, set the status to `DeadlineExceeded`, set the
`heartbeat = failed` tag. -/
def stallMark (t1 : Txn) : Txn :=
  { t1 with
    log := t1.log ++ [stallLogMsg],
    status := some SpanStatus.DeadlineExceeded,
    tags := setTagOn "heartbeat" "failed" t1.tags }

/-- `IdleTransaction._beat` (source lines 70-93): with a nonempty activity
set, compare the signature with the previous one, bump or reset the stale
counter, and when the counter has reached 3 run the stall marking and
`_finishIdleTransaction(timestampWithMs())` (line 88).  If that call aborts
(stack overflow inside the rebound `this.finish()`), lines 90 and 92 do not
run: the signature is not stored and no next beat is scheduled.  Otherwise
the signature is stored (line 90) and `_pingHeartbeat` (lines 92, 98-102)
reschedules the next beat after 5000 ms; with an empty activity set the whole
block is skipped and the beat only reschedules itself. -/
def beat (now : ℚ) (t : Txn) : Txn × List Sched × Option Abort :=
  if t.activities.isEmpty then
    (t, [⟨Task.beat, 5000⟩], none)
  else
    let hbs := heartbeatString t.activities
    let t1 :=
      if t.prevHeartbeatString = some hbs then
        { t with heartbeatCounter := t.heartbeatCounter + 1 }
      else
        { t with heartbeatCounter := 0 }
    if 3 ≤ t1.heartbeatCounter then
      match finishIdleTransaction now now (stallMark t1) with
      | (t2, some a) => (t2, [], some a)
      | (t2, none) =>
          ({ t2 with prevHeartbeatString := some hbs },
           [⟨Task.beat, 5000⟩], none)
    else
      ({ t1 with prevHeartbeatString := some hbs }, [⟨Task.beat, 5000⟩], none)

/-- `IdleTransactionSpanRecorder.add` (source lines 27-39) applied to a child
span object: rebind the span's `finish` slot to the wrapper, delegate to the
base append, then invoke the recorder's `_pushActivity` field on the span's
id — an unbound method reference, so that invocation throws a TypeError (see
`invokeRecorderCallback`) after the span was already wrapped and appended. -/
def recorderAdd (s : SpanData) (t : Txn) : Txn × List Sched × Option Abort :=
  match t.spanRecorder with
  | none => (t, [], none)
  | some r =>
      let s1 := { s with finishImpl := FinishImpl.idleWrapper }
      let t1 :=
        { t with
          spanRecorder :=
            some { r with spans := baseRecorderAdd r.maxlen r.spans s1 } }
      match r.pushActivityCb with
      | some cb => invokeRecorderCallback cb s1.spanId t1
      | none => (t1, [], none)

/-- The transaction viewed as the span object that `initSpanRecorder` adds to
its own recorder (`this.spanRecorder.add(this)`, source line 177).  The
source passes the transaction object itself: its `finish` property is the
transaction's `finishSlot`, and its only interaction with reconciliation is
the identity case of source lines 111-113. -/
def selfSpan (t : Txn) : SpanData :=
  { spanId := t.spanId, startTimestamp := t.startTimestamp,
    endTimestamp := t.endTimestamp, status := t.status,
    finishImpl := t.finishSlot }

/-- `add(this)` (source line 177): the span argument is the transaction
object itself, so the rebinding of line 28 rebinds the **transaction's own**
`finish` slot to the self-recursive wrapper; the base append stores the same
(now wrapped) object, and the unbound callback invocation of line 37 then
throws as for any add. -/
def recorderAddSelf (t : Txn) : Txn × List Sched × Option Abort :=
  match t.spanRecorder with
  | none => (t, [], none)
  | some _ =>
      let t0 := { t with finishSlot := FinishImpl.idleWrapper }
      recorderAdd (selfSpan t0) t0

/-- `IdleTransaction.initSpanRecorder` (source lines 172-178): construct the
recorder when absent — source line 175 passes
`(maxlen, this._popActivity, this._pushActivity)` to a constructor whose
parameters are `(maxlen, pushActivity, popActivity)`, so the recorder's
`_pushActivity` field receives the transaction's `_popActivity` method and
vice versa, both unbound — then add the transaction itself (line 177), which
rebinds the transaction's `finish` slot and ends in the callback's
TypeError. -/
def initSpanRecorder (maxlen : Option Nat) (t : Txn) :
    Txn × List Sched × Option Abort :=
  let t1 :=
    match t.spanRecorder with
    | none =>
        { t with
          spanRecorder :=
            some { maxlen := maxlen,
                   pushActivityCb := some ActCallback.popA,
                   popActivityCb := some ActCallback.pushA,
                   spans := [] } }
    | some _ => t
  recorderAddSelf t1

/-- The `IdleTransaction` constructor (source lines 58-64): record the idle
timeout and start the heartbeat.  The base-class initialization (not under
`src/`) is modelled from the spec: fresh span identity and start time, no end
time, the prototype `finish` method in the slot, empty bookkeeping. -/
def mkIdleTransaction (spanId : String) (now : ℚ) (idleTimeout : ℚ) :
    Txn × List Sched :=
  ({ spanId := spanId, startTimestamp := now, endTimestamp := none,
     status := none, finishSlot := FinishImpl.original, tags := [],
     idleTimeout := idleTimeout, activities := [],
     prevHeartbeatString := none, heartbeatCounter := 0,
     spanRecorder := none, emitted := 0, log := [] },
   [⟨Task.beat, 5000⟩])

/-- Calling a span's `finish` property (fuel-indexed, since the call need not
terminate).  The wrapper installed by `add` (source lines 28-33) first calls
`span.finish(endTimestamp)` — a property lookup on the very slot the
assignment just rebound — and then invokes the recorder's `_popActivity`
field; the callbacks that a terminating call would hand to the transaction are
returned alongside the span. -/
def invokeSpanFinish (popCb : Option ActCallback) :
    Nat → ℚ → Option ℚ → SpanData → Option (SpanData × List ActCallback)
  | 0, _, _, _ => none
  | fuel + 1, now, e, s =>
      match s.finishImpl with
      | FinishImpl.original => some (spanFinishOriginal now e s, [])
      | FinishImpl.idleWrapper =>
          match invokeSpanFinish popCb fuel now e s with
          | none => none
          | some (s1, cbs) => some (s1, cbs ++ popCb.toList)

/-- Iterated heartbeat: before each tick the surrounding callers may have
changed the activity set; each list entry supplies the clock value and the
activity set for that tick.  A tick that aborts schedules no successor, so
the run ends there. -/
def runBeats (t : Txn) : List (ℚ × List String) → Txn
  | [] => t
  | (now, acts) :: rest =>
      match beat now { t with activities := acts } with
      | (t1, _, some _) => t1
      | (t1, _, none) => runBeats t1 rest

/-- The signature changes on every tick: each tick's activity set is nonempty
and its signature differs from the signature stored by the previous tick. -/
def sigsChange : Option String → List (ℚ × List String) → Bool
  | _, [] => true
  | prev, (_, acts) :: rest =>
      !acts.isEmpty && prev ≠ some (heartbeatString acts) &&
        sigsChange (some (heartbeatString acts)) rest

/-! Sample states used by concrete counterexamples and witnesses. -/

/-- A fresh recorder as built by `initSpanRecorder` (note the swapped
callback fields of source line 175). -/
def freshRecorder : IdleRecorder :=
  { maxlen := none, pushActivityCb := some ActCallback.popA,
    popActivityCb := some ActCallback.pushA, spans := [] }

/-- A transaction with an initialized recorder and no activity; the recorder
initialization has rebound its `finish` slot to the wrapper, as `add(this)`
always does. -/
def wrappedRecTxn : Txn :=
  { spanId := "T", startTimestamp := 0, endTimestamp := none, status := none,
    finishSlot := FinishImpl.idleWrapper, tags := [], idleTimeout := 500,
    activities := [], prevHeartbeatString := none, heartbeatCounter := 0,
    spanRecorder := some freshRecorder, emitted := 0, log := [] }

/-- A transaction with an initialized recorder (hence a rebound `finish`
slot) whose heartbeat saw no changes for two previous beats and whose
activity set is `["a", "b"]`. -/
def stalledTxn : Txn :=
  { spanId := "T", startTimestamp := 0, endTimestamp := none, status := none,
    finishSlot := FinishImpl.idleWrapper, tags := [], idleTimeout := 500,
    activities := ["a", "b"], prevHeartbeatString := some "ab",
    heartbeatCounter := 2, spanRecorder := some freshRecorder, emitted := 0,
    log := [] }

/-- A transaction with an initialized recorder (hence a rebound `finish`
slot) and one tracked activity. -/
def oneActTxn : Txn :=
  { spanId := "T", startTimestamp := 0, endTimestamp := none, status := none,
    finishSlot := FinishImpl.idleWrapper, tags := [], idleTimeout := 500,
    activities := ["a"], prevHeartbeatString := none, heartbeatCounter := 0,
    spanRecorder := some freshRecorder, emitted := 0, log := [] }

/-- A transaction whose recorder was never initialized (so its `finish` slot
still holds the prototype method). -/
def noRecTxn : Txn :=
  { spanId := "T", startTimestamp := 0, endTimestamp := none, status := none,
    finishSlot := FinishImpl.original, tags := [], idleTimeout := 500,
    activities := [], prevHeartbeatString := none, heartbeatCounter := 0,
    spanRecorder := none, emitted := 0, log := [] }

/-- A span with the wrapper installed in its `finish` slot. -/
def wrappedSpan : SpanData :=
  { spanId := "c", startTimestamp := 1, endTimestamp := none, status := none,
    finishImpl := FinishImpl.idleWrapper }

/-- The transaction's own recorder entry in the reconciliation samples. -/
def spanSelfT : SpanData :=
  { spanId := "T", startTimestamp := 0, endTimestamp := none, status := none,
    finishImpl := FinishImpl.original }

/-- An open child span that started before the sample boundary. -/
def spanOpenEarly : SpanData :=
  { spanId := "a", startTimestamp := 1, endTimestamp := none, status := none,
    finishImpl := FinishImpl.original }

/-- An open child span that started after the sample boundary. -/
def spanOpenLate : SpanData :=
  { spanId := "b", startTimestamp := 12, endTimestamp := none, status := none,
    finishImpl := FinishImpl.original }

/-- A closed child span that started before the sample boundary. -/
def spanClosedEarly : SpanData :=
  { spanId := "c", startTimestamp := 2, endTimestamp := some 3,
    status := some SpanStatus.Ok, finishImpl := FinishImpl.original }

/-- Sample recorder content for the reconciliation witness: the transaction's
own entry, an open early child, an open late child, and a closed early
child. -/
def sampleSpans : List SpanData :=
  [spanSelfT, spanOpenEarly, spanOpenLate, spanClosedEarly]

/-- A child span before being added to a recorder. -/
def childSpan : SpanData :=
  { spanId := "c", startTimestamp := 100, endTimestamp := none, status := none,
    finishImpl := FinishImpl.original }

/-! Helper lemmas shared by the claim theorems. -/

lemma finishIdle_status (now e : ℚ) (t : Txn) :
    (finishIdleTransaction now e t).1.status = t.status := by
  cases h : t.spanRecorder with
  | none => simp [finishIdleTransaction, h]
  | some r =>
      cases hs : t.finishSlot <;>
        simp [finishIdleTransaction, h, callTxnFinish, hs, transactionFinish]

lemma finishIdle_tags (now e : ℚ) (t : Txn) :
    (finishIdleTransaction now e t).1.tags = t.tags := by
  cases h : t.spanRecorder with
  | none => simp [finishIdleTransaction, h]
  | some r =>
      cases hs : t.finishSlot <;>
        simp [finishIdleTransaction, h, callTxnFinish, hs, transactionFinish]

/-- A finalize call that finds both an initialized recorder and the rebound
`finish` slot aborts with a stack overflow: no emit, no end time. -/
lemma finishIdle_abort (now e : ℚ) (t : Txn) (r : IdleRecorder)
    (hr : t.spanRecorder = some r)
    (hs : t.finishSlot = FinishImpl.idleWrapper) :
    (finishIdleTransaction now e t).2 = some Abort.stackOverflow ∧
    (finishIdleTransaction now e t).1.emitted = t.emitted ∧
    (finishIdleTransaction now e t).1.endTimestamp = t.endTimestamp := by
  simp [finishIdleTransaction, hr, callTxnFinish, hs]

lemma isEmpty_false_of_ne_nil {l : List String} (h : l ≠ []) :
    l.isEmpty = false := by
  cases l with
  | nil => exact absurd rfl h
  | cons a as => rfl

/-- A beat whose signature differs from the stored one resets the counter,
stores the new signature, reschedules, and changes nothing else. -/
lemma beat_changed_sig (now : ℚ) (t : Txn) (h1 : t.activities ≠ [])
    (h2 : t.prevHeartbeatString ≠ some (heartbeatString t.activities)) :
    beat now t =
      ({ t with heartbeatCounter := 0,
                prevHeartbeatString := some (heartbeatString t.activities) },
       [⟨Task.beat, 5000⟩], none) := by
  have hE := isEmpty_false_of_ne_nil h1
  simp only [beat, hE, Bool.false_eq_true, if_false, if_neg h2]
  norm_num

/-- Every beat either returns normally and reschedules itself, or aborted
inside the stall-path finalize and schedules nothing. -/
lemma beat_sched_shape (now : ℚ) (t : Txn) :
    (beat now t).2 = ([⟨Task.beat, 5000⟩], none) ∨
    ∃ a, (beat now t).2 = ([], some a) := by
  by_cases hE : t.activities.isEmpty
  · left
    simp [beat, hE]
  · have hE' : t.activities.isEmpty = false := by
      cases hb : t.activities.isEmpty
      · rfl
      · exact absurd hb hE
    by_cases hsig : t.prevHeartbeatString = some (heartbeatString t.activities)
    · by_cases hcnt : 3 ≤ t.heartbeatCounter + 1
      · rcases hfin : finishIdleTransaction now now
            (stallMark { t with heartbeatCounter := t.heartbeatCounter + 1 })
          with ⟨t2, a⟩
        cases a with
        | none =>
            left
            simp only [beat, hE', Bool.false_eq_true, if_false, if_pos hsig]
            rw [if_pos (show
              3 ≤ ({ t with heartbeatCounter := t.heartbeatCounter + 1 } :
                Txn).heartbeatCounter from hcnt)]
            rw [hfin]
        | some ab =>
            right
            refine ⟨ab, ?_⟩
            simp only [beat, hE', Bool.false_eq_true, if_false, if_pos hsig]
            rw [if_pos (show
              3 ≤ ({ t with heartbeatCounter := t.heartbeatCounter + 1 } :
                Txn).heartbeatCounter from hcnt)]
            rw [hfin]
      · left
        simp only [beat, hE', Bool.false_eq_true, if_false, if_pos hsig]
        rw [if_neg (show
          ¬3 ≤ ({ t with heartbeatCounter := t.heartbeatCounter + 1 } :
            Txn).heartbeatCounter from hcnt)]
    · left
      simp only [beat, hE', Bool.false_eq_true, if_false, if_neg hsig]
      norm_num

/-- Beating through a whole tick list on which the signature always changes
leaves status, tags and the emit count untouched. -/
lemma runBeats_no_stall :
    ∀ (ticks : List (ℚ × List String)) (t : Txn),
      sigsChange t.prevHeartbeatString ticks = true →
      (runBeats t ticks).status = t.status ∧
      (runBeats t ticks).tags = t.tags ∧
      (runBeats t ticks).emitted = t.emitted := by
  intro ticks
  induction ticks with
  | nil => intro t _; exact ⟨rfl, rfl, rfl⟩
  | cons tick rest ih =>
      intro t h
      obtain ⟨now, acts⟩ := tick
      simp only [sigsChange, Bool.and_eq_true, Bool.not_eq_true',
        decide_eq_true_eq] at h
      obtain ⟨⟨hne, hdiff⟩, hrest⟩ := h
      have hne' : acts ≠ [] := by
        intro hc
        rw [hc] at hne
        exact absurd hne (by decide)
      have hb := beat_changed_sig now { t with activities := acts }
        (by simpa using hne') (by simpa using hdiff)
      have hstep : runBeats t ((now, acts) :: rest) =
          runBeats
            { t with
              activities := acts,
              heartbeatCounter := 0,
              prevHeartbeatString := some (heartbeatString acts) } rest := by
        simp only [runBeats]
        rw [hb]
      rw [hstep]
      exact ih _ (by simpa using hrest)

/-! Claim theorems. -/

/-- C1 (counterexample): finalize is neither guarded nor exactly-once in the
claimed sense.  With no recorder a finalize call completes, yet a later
finalize call is **not** a no-op (it changes the state again); and with an
initialized recorder a finalize call aborts with a stack overflow inside the
rebound `this.finish()`, so the underlying finish/emit sink is never invoked
at all — the described finalized-guard protocol does not exist in the
code. -/
theorem finalize_guard_absent :
    (finishIdleTransaction 10 10 noRecTxn).2 = none ∧
    (finishIdleTransaction 20 20 (finishIdleTransaction 10 10 noRecTxn).1).1 ≠
      (finishIdleTransaction 10 10 noRecTxn).1 ∧
    (finishIdleTransaction 10 10 wrappedRecTxn).2 = some Abort.stackOverflow ∧
    (finishIdleTransaction 10 10 wrappedRecTxn).1.emitted = 0 := by
  refine ⟨rfl, by decide, rfl, rfl⟩

/-- C1 (amended): the code keeps no finalized flag, and no finalize call is a
guarded no-op.  Every finalize call that finds an initialized span recorder —
whose initialization rebound the transaction's `finish` slot to the
self-recursive wrapper — re-runs reconciliation, appends the flush log entry,
and then aborts with a stack overflow inside `this.finish()`: the underlying
finish/emit sink is invoked zero times per call, not once per transaction. -/
theorem finalize_with_recorder_aborts (now e : ℚ) (t : Txn)
    (r : IdleRecorder) (hr : t.spanRecorder = some r)
    (hs : t.finishSlot = FinishImpl.idleWrapper) :
    (finishIdleTransaction now e t).2 = some Abort.stackOverflow ∧
    (finishIdleTransaction now e t).1.emitted = t.emitted ∧
    (finishIdleTransaction now e t).1.endTimestamp = t.endTimestamp ∧
    (finishIdleTransaction now e t).1.log =
      t.log ++ ["[Tracing] flushing IdleTransaction"] := by
  simp [finishIdleTransaction, hr, callTxnFinish, hs]

/-- C1 (witness for the amended theorem). -/
theorem finalize_with_recorder_aborts_witness :
    (finishIdleTransaction 10 10 wrappedRecTxn).2 = some Abort.stackOverflow ∧
    (finishIdleTransaction 10 10 wrappedRecTxn).1.emitted =
      wrappedRecTxn.emitted ∧
    (finishIdleTransaction 10 10 wrappedRecTxn).1.endTimestamp =
      wrappedRecTxn.endTimestamp ∧
    (finishIdleTransaction 10 10 wrappedRecTxn).1.log =
      wrappedRecTxn.log ++ ["[Tracing] flushing IdleTransaction"] :=
  finalize_with_recorder_aborts 10 10 wrappedRecTxn freshRecorder rfl rfl

/-- C2: evaluation of the code at the failing input.  After
`initSpanRecorder`, the recorder's `_pushActivity` field holds the
transaction's `_popActivity` method and vice versa (source line 175 passes
the two method references in swapped positional order), and both are unbound:
the self-registration `add` rebinds the transaction's `finish` slot, appends
the span, and then throws a TypeError inside the stored callback — no
activity id is ever pushed and nothing is scheduled; adding a further child
span likewise pushes nothing and throws.  The claim's push-on-add /
pop-on-finish wiring exists nowhere in the code. -/
theorem recorder_wiring_swapped_and_unbound :
    ((initSpanRecorder none (mkIdleTransaction "T" 100 500).1).1.spanRecorder.map
        IdleRecorder.pushActivityCb = some (some ActCallback.popA)) ∧
    ((initSpanRecorder none (mkIdleTransaction "T" 100 500).1).1.spanRecorder.map
        IdleRecorder.popActivityCb = some (some ActCallback.pushA)) ∧
    ((initSpanRecorder none (mkIdleTransaction "T" 100 500).1).1.finishSlot =
      FinishImpl.idleWrapper) ∧
    ((initSpanRecorder none (mkIdleTransaction "T" 100 500).1).1.activities = []) ∧
    ((initSpanRecorder none (mkIdleTransaction "T" 100 500).1).2 =
      ([], some Abort.typeError)) ∧
    ((recorderAdd childSpan
        (initSpanRecorder none (mkIdleTransaction "T" 100 500).1).1).1.activities = []) ∧
    ((recorderAdd childSpan
        (initSpanRecorder none (mkIdleTransaction "T" 100 500).1).1).2 =
      ([], some Abort.typeError)) := by
  refine ⟨rfl, rfl, rfl, rfl, rfl, rfl, rfl⟩

/-- C3: evaluation of the code at the failing input.  After `add` rebinds a
span's `finish` slot to the wrapper of source lines 28-33, calling the slot
never terminates for any amount of fuel: the wrapper's inner call
`span.finish(endTimestamp)` looks the slot up again and finds the wrapper
itself, so the original finish is never reached and no activity callback ever
runs. -/
theorem wrapped_finish_never_terminates (popCb : Option ActCallback)
    (fuel : Nat) (now : ℚ) (e : Option ℚ) (s : SpanData)
    (h : s.finishImpl = FinishImpl.idleWrapper) :
    invokeSpanFinish popCb fuel now e s = none := by
  induction fuel with
  | zero => rfl
  | succ n ih => simp [invokeSpanFinish, h, ih]

/-- C3 (witness). -/
theorem wrapped_finish_never_terminates_witness :
    invokeSpanFinish (some ActCallback.pushA) 100 5 none wrappedSpan = none :=
  wrapped_finish_never_terminates (some ActCallback.pushA) 100 5 none
    wrappedSpan rfl

/-- C4: finalize reconciliation, for every recorder state.  (1) every span
carrying the transaction's own id is retained unchanged; (2) every other open
span that started strictly before the boundary is retained with its end time
set to the boundary and its status set to `Cancelled`; (3) every retained span
other than the transaction's own entry started strictly before the boundary
(spans starting at or after it are removed); (4) every other span that
started strictly before the boundary is retained, either as it was or in its
cancelled form. -/
theorem finalize_reconciliation (txnId : String) (T : ℚ)
    (spans : List SpanData) :
    (∀ s ∈ spans, s.spanId = txnId → s ∈ reconcile txnId T spans) ∧
    (∀ s ∈ spans, s.spanId ≠ txnId → s.endTimestamp = none →
      s.startTimestamp < T → cancelSpan T s ∈ reconcile txnId T spans) ∧
    (∀ s ∈ reconcile txnId T spans, s.spanId ≠ txnId → s.startTimestamp < T) ∧
    (∀ s ∈ spans, s.spanId ≠ txnId → s.startTimestamp < T →
      s ∈ reconcile txnId T spans ∨ cancelSpan T s ∈ reconcile txnId T spans) := by
  refine ⟨?_, ?_, ?_, ?_⟩
  · intro s hs h
    simp only [reconcile, List.mem_filterMap, List.mem_map]
    refine ⟨reconcileSpan txnId T s, ⟨s, hs, rfl⟩, ?_⟩
    simp [reconcileSpan, h]
  · intro s hs hne hopen hlt
    simp only [reconcile, List.mem_filterMap, List.mem_map]
    refine ⟨reconcileSpan txnId T s, ⟨s, hs, rfl⟩, ?_⟩
    simp [reconcileSpan, hne, jsFalsyNum, hopen, cancelSpan, hlt]
  · intro s hmem hne
    simp only [reconcile, List.mem_filterMap, List.mem_map] at hmem
    obtain ⟨p, ⟨s0, hs0, rfl⟩, hp⟩ := hmem
    by_cases h0 : s0.spanId = txnId
    · simp [reconcileSpan, h0] at hp
      subst hp
      exact absurd h0 hne
    · by_cases hf : jsFalsyNum s0.endTimestamp
      · by_cases hlt : s0.startTimestamp < T
        · simp [reconcileSpan, h0, hf, cancelSpan, hlt] at hp
          subst hp
          exact hlt
        · simp [reconcileSpan, h0, hf, cancelSpan, hlt] at hp
      · by_cases hlt : s0.startTimestamp < T
        · simp [reconcileSpan, h0, hf, hlt] at hp
          subst hp
          exact hlt
        · simp [reconcileSpan, h0, hf, hlt] at hp
  · intro s hs hne hlt
    by_cases hf : jsFalsyNum s.endTimestamp
    · right
      simp only [reconcile, List.mem_filterMap, List.mem_map]
      refine ⟨reconcileSpan txnId T s, ⟨s, hs, rfl⟩, ?_⟩
      simp [reconcileSpan, hne, hf, cancelSpan, hlt]
    · left
      simp only [reconcile, List.mem_filterMap, List.mem_map]
      refine ⟨reconcileSpan txnId T s, ⟨s, hs, rfl⟩, ?_⟩
      simp [reconcileSpan, hne, hf, hlt]

/-- C4 (witness): on the sample recorder content with boundary 10, the
transaction's own entry is retained, the open early child is retained in
cancelled form, and the closed early child is retained as it was. -/
theorem finalize_reconciliation_witness :
    spanSelfT ∈ reconcile "T" 10 sampleSpans ∧
    cancelSpan 10 spanOpenEarly ∈ reconcile "T" 10 sampleSpans ∧
    (spanClosedEarly ∈ reconcile "T" 10 sampleSpans ∨
      cancelSpan 10 spanClosedEarly ∈ reconcile "T" 10 sampleSpans) :=
  ⟨(finalize_reconciliation "T" 10 sampleSpans).1 spanSelfT (by decide)
      (by decide),
   (finalize_reconciliation "T" 10 sampleSpans).2.1 spanOpenEarly (by decide)
      (by decide) (by decide) (by decide),
   (finalize_reconciliation "T" 10 sampleSpans).2.2.2 spanClosedEarly
      (by decide) (by decide) (by decide)⟩

/-- C5: evaluation of the code at the failing input.  When the activity set
drains at clock 100 with a 500 ms idle timeout, the deferred finalize carries
the scheduled end timestamp 100.5 (201/2); but when that timer fires at clock
100.6 (503/5), `_finishIdleTransaction` finds the recorder present and calls
`this.finish()` through the transaction's rebound `finish` slot, so the run
aborts with a stack overflow and the transaction's end time is never set at
all — let alone to the scheduled value that was passed in (line 133 also
passes no argument, so even a non-aborting base finish could not have
received it). -/
theorem finalize_never_sets_end :
    (popActivity 100 "a" oneActTxn).2 =
      [⟨Task.idleFinish (100 + oneActTxn.idleTimeout / 1000),
        oneActTxn.idleTimeout⟩] ∧
    100 + oneActTxn.idleTimeout / 1000 = (201 : ℚ) / 2 ∧
    (finishIdleTransaction ((503 : ℚ) / 5) ((201 : ℚ) / 2)
        (popActivity 100 "a" oneActTxn).1).2 = some Abort.stackOverflow ∧
    (finishIdleTransaction ((503 : ℚ) / 5) ((201 : ℚ) / 2)
        (popActivity 100 "a" oneActTxn).1).1.endTimestamp = none := by
  refine ⟨rfl, by norm_num [oneActTxn], rfl, rfl⟩

/-- C6 (counterexample): the stall beat does **not** force-finalize the
transaction.  On a concretely stalled transaction with an initialized
recorder, the tick at which the stale counter reaches 3 sets the status and
the tag, but then aborts with a stack overflow inside the rebound
`this.finish()`: nothing is emitted, no end time is set, and the tick
schedules nothing further. -/
theorem stall_beat_does_not_finish :
    (beat 50 stalledTxn).1.status = some SpanStatus.DeadlineExceeded ∧
    (beat 50 stalledTxn).2.2 = some Abort.stackOverflow ∧
    (beat 50 stalledTxn).1.emitted = 0 ∧
    (beat 50 stalledTxn).1.endTimestamp = none ∧
    (beat 50 stalledTxn).2.1 = [] := by
  refine ⟨rfl, rfl, rfl, rfl, rfl⟩

/-- C6 (amended): first part — on any tick at which the activity set is
nonempty, its signature equals the previously stored one, and the stale
counter reaches 3 (it was already at least 2), the beat sets the transaction
status to `DeadlineExceeded` and the `heartbeat = failed` tag and enters the
finalize path at that tick; but with an initialized recorder (whose
initialization rebound the transaction's `finish` slot) that finalize aborts
with a stack overflow before the underlying finish/emit runs — no emit, no
end time, nothing further scheduled — so the transaction is not actually
finished.  Second part: a run of ticks on each of which the (nonempty)
activity set's signature differs from the previously stored one never
triggers this path, regardless of the number of ticks: status, tags and the
emit count are untouched. -/
theorem heartbeat_stall_sets_status_then_aborts :
    (∀ (now : ℚ) (t : Txn), t.activities ≠ [] →
      t.prevHeartbeatString = some (heartbeatString t.activities) →
      2 ≤ t.heartbeatCounter →
      ((beat now t).1.status = some SpanStatus.DeadlineExceeded ∧
       ("heartbeat", "failed") ∈ (beat now t).1.tags ∧
       ∀ r, t.spanRecorder = some r →
         t.finishSlot = FinishImpl.idleWrapper →
         (beat now t).2.2 = some Abort.stackOverflow ∧
         (beat now t).1.emitted = t.emitted ∧
         (beat now t).1.endTimestamp = t.endTimestamp ∧
         (beat now t).2.1 = [])) ∧
    (∀ (t : Txn) (ticks : List (ℚ × List String)),
      sigsChange t.prevHeartbeatString ticks = true →
      (runBeats t ticks).status = t.status ∧
      (runBeats t ticks).tags = t.tags ∧
      (runBeats t ticks).emitted = t.emitted) := by
  constructor
  · intro now t h1 h2 h3
    have hE := isEmpty_false_of_ne_nil h1
    have h4 : 3 ≤ t.heartbeatCounter + 1 := by omega
    rcases hfin : finishIdleTransaction now now
        (stallMark { t with heartbeatCounter := t.heartbeatCounter + 1 })
      with ⟨t2, a⟩
    have hst := finishIdle_status now now
      (stallMark { t with heartbeatCounter := t.heartbeatCounter + 1 })
    have htg := finishIdle_tags now now
      (stallMark { t with heartbeatCounter := t.heartbeatCounter + 1 })
    simp only [hfin] at hst htg
    cases a with
    | some ab =>
        have hbeat : beat now t = (t2, [], some ab) := by
          simp only [beat, hE, Bool.false_eq_true, if_false, if_pos h2]
          rw [if_pos (show
            3 ≤ ({ t with heartbeatCounter := t.heartbeatCounter + 1 } :
              Txn).heartbeatCounter from h4)]
          rw [hfin]
        refine ⟨?_, ?_, ?_⟩
        · rw [hbeat]
          simpa [stallMark] using hst
        · rw [hbeat]
          show ("heartbeat", "failed") ∈ t2.tags
          rw [htg]
          simp [stallMark, setTagOn]
        · intro r hr hs
          have hab := finishIdle_abort now now
            (stallMark { t with heartbeatCounter := t.heartbeatCounter + 1 })
            r hr hs
          rw [hfin] at hab
          simp [stallMark] at hab
          obtain ⟨hab1, hab2, hab3⟩ := hab
          subst hab1
          rw [hbeat]
          exact ⟨rfl, hab2, hab3, rfl⟩
    | none =>
        have hbeat : beat now t =
            ({ t2 with
               prevHeartbeatString := some (heartbeatString t.activities) },
             [⟨Task.beat, 5000⟩], none) := by
          simp only [beat, hE, Bool.false_eq_true, if_false, if_pos h2]
          rw [if_pos (show
            3 ≤ ({ t with heartbeatCounter := t.heartbeatCounter + 1 } :
              Txn).heartbeatCounter from h4)]
          rw [hfin]
        refine ⟨?_, ?_, ?_⟩
        · rw [hbeat]
          simpa [stallMark] using hst
        · rw [hbeat]
          show ("heartbeat", "failed") ∈ t2.tags
          rw [htg]
          simp [stallMark, setTagOn]
        · intro r hr hs
          have hab := finishIdle_abort now now
            (stallMark { t with heartbeatCounter := t.heartbeatCounter + 1 })
            r hr hs
          rw [hfin] at hab
          simp at hab
  · exact fun t ticks h => runBeats_no_stall ticks t h

/-- C6 (witness for the amended theorem): the concretely stalled transaction
gets the status and tag but aborts without emitting, and a concrete
three-tick run with a changing signature leaves a transaction untouched. -/
theorem heartbeat_stall_sets_status_then_aborts_witness :
    ((beat 50 stalledTxn).1.status = some SpanStatus.DeadlineExceeded ∧
     ("heartbeat", "failed") ∈ (beat 50 stalledTxn).1.tags ∧
     (beat 50 stalledTxn).2.2 = some Abort.stackOverflow ∧
     (beat 50 stalledTxn).1.emitted = stalledTxn.emitted) ∧
    ((runBeats noRecTxn [(5, ["a"]), (10, ["b"]), (15, ["a"])]).status =
        noRecTxn.status ∧
     (runBeats noRecTxn [(5, ["a"]), (10, ["b"]), (15, ["a"])]).emitted =
        noRecTxn.emitted) := by
  have h1 := heartbeat_stall_sets_status_then_aborts.1 50 stalledTxn
    (by decide) rfl (by decide)
  have h2 := heartbeat_stall_sets_status_then_aborts.2 noRecTxn
    [(5, ["a"]), (10, ["b"]), (15, ["a"])] (by decide)
  have h3 := h1.2.2 freshRecorder rfl rfl
  exact ⟨⟨h1.1, h1.2.1, h3.1, h3.2.1⟩, ⟨h2.1, h2.2.2⟩⟩

/-- C7 (counterexample): heartbeat ticks keep running and being rescheduled
after a finalize has run.  On a transaction with no recorder a finalize
completes; the heartbeat tick that fires afterwards runs its callback
normally and schedules the next beat — nothing in `_beat` consults any
finalized state. -/
theorem beat_reschedules_after_finalize_ran :
    (finishIdleTransaction 10 10 noRecTxn).2 = none ∧
    (beat 20 (finishIdleTransaction 10 10 noRecTxn).1).2.1 =
      [⟨Task.beat, 5000⟩] ∧
    (beat 20 (finishIdleTransaction 10 10 noRecTxn).1).2.2 = none := by
  refine ⟨rfl, rfl, rfl⟩

/-- C7 (amended): `_beat`'s rescheduling never consults finalization: a tick
reschedules the next heartbeat exactly when it does not itself abort inside
the stall-path finalize, and an aborting tick schedules nothing — so the
monitor keeps ticking after any completed finalize, and the only way the
heartbeat chain stops is a tick crashing inside the rebound finish. -/
theorem beat_reschedule_policy (now : ℚ) (t : Txn) :
    ((beat now t).2.2 = none → (beat now t).2.1 = [⟨Task.beat, 5000⟩]) ∧
    ((beat now t).2.2 ≠ none → (beat now t).2.1 = []) := by
  rcases beat_sched_shape now t with h | ⟨a, h⟩
  · constructor
    · intro _
      rw [h]
    · intro hn
      exact absurd (by rw [h]) hn
  · constructor
    · intro hn
      rw [h] at hn
      exact absurd hn (by simp)
    · intro _
      rw [h]

/-- C7 (witness for the amended theorem). -/
theorem beat_reschedule_policy_witness :
    (beat 7 noRecTxn).2.1 = [⟨Task.beat, 5000⟩] ∧
    (beat 50 stalledTxn).2.1 = [] :=
  ⟨(beat_reschedule_policy 7 noRecTxn).1 rfl,
   (beat_reschedule_policy 50 stalledTxn).2 (by decide)⟩

/-- C8: a heartbeat tick at which the activity set is empty changes nothing
at all — no signature is computed, the stale counter and stored signature are
left unchanged, no finalize runs, nothing aborts — and the tick only
reschedules itself. -/
theorem empty_beat_leaves_state (now : ℚ) (t : Txn)
    (h : t.activities = []) :
    beat now t = (t, [⟨Task.beat, 5000⟩], none) := by
  simp [beat, h]

/-- C8 (witness). -/
theorem empty_beat_leaves_state_witness :
    beat 7 noRecTxn = (noRecTxn, [⟨Task.beat, 5000⟩], none) :=
  empty_beat_leaves_state 7 noRecTxn rfl

/-- C9 (counterexample): with no span recorder, finalize does **not** emit
the bare transaction: the underlying finish/emit path is skipped entirely (no
sink invocation, no end timestamp), the call returns normally, and only the
log records the condition. -/
theorem missing_recorder_skips_emit :
    (finishIdleTransaction 10 5 noRecTxn).1.emitted = 0 ∧
    (finishIdleTransaction 10 5 noRecTxn).1.endTimestamp = none ∧
    (finishIdleTransaction 10 5 noRecTxn).2 = none ∧
    (finishIdleTransaction 10 5 noRecTxn).1.log =
      ["[Tracing] No active IdleTransaction"] := by
  refine ⟨rfl, rfl, rfl, rfl⟩

/-- C9 (amended): if the span recorder was never initialized, finalize
degrades to logging the condition and returning — it does not throw or abort,
it performs no reconciliation, and it silently skips the emit. -/
theorem missing_recorder_logs_only (now e : ℚ) (t : Txn)
    (h : t.spanRecorder = none) :
    finishIdleTransaction now e t =
      ({ t with log := t.log ++ ["[Tracing] No active IdleTransaction"] },
       none) := by
  simp [finishIdleTransaction, h]

/-- C9 (witness for the amended theorem). -/
theorem missing_recorder_logs_only_witness :
    finishIdleTransaction 10 5 noRecTxn =
      ({ noRecTxn with
         log := noRecTxn.log ++ ["[Tracing] No active IdleTransaction"] },
       none) :=
  missing_recorder_logs_only 10 5 noRecTxn rfl

/-- C10: `_popActivity` schedules a deferred finalize (carrying
`now + idleTimeout / 1000` as the proposed end, to fire after `idleTimeout`
milliseconds) exactly when the activity set is empty after the call, and
schedules nothing otherwise; the decision depends only on the post-call
emptiness, so popping against an already-empty set — even with an id that was
never present — schedules, and repeated pops against an empty set each
schedule an additional deferred finalize. -/
theorem popActivity_scheduling (now now2 : ℚ) (id id2 : String) (t : Txn) :
    ((popActivity now id t).1.activities = [] →
      (popActivity now id t).2 =
        [⟨Task.idleFinish (now + t.idleTimeout / 1000), t.idleTimeout⟩]) ∧
    ((popActivity now id t).1.activities ≠ [] →
      (popActivity now id t).2 = []) ∧
    (t.activities = [] →
      (popActivity now id t).1 = t ∧
      (popActivity now id t).2 =
        [⟨Task.idleFinish (now + t.idleTimeout / 1000), t.idleTimeout⟩] ∧
      (popActivity now2 id2 (popActivity now id t).1).2 =
        [⟨Task.idleFinish (now2 + t.idleTimeout / 1000), t.idleTimeout⟩]) := by
  have hfst : ∀ (n : ℚ) (i : String) (u : Txn),
      (popActivity n i u).1 = popActivityRemove i u := by
    intro n i u
    simp only [popActivity]
    split <;> rfl
  have htime : ∀ (i : String) (u : Txn),
      (popActivityRemove i u).idleTimeout = u.idleTimeout := by
    intro i u
    unfold popActivityRemove
    split <;> rfl
  have hempty : ∀ (i : String) (u : Txn), u.activities = [] →
      popActivityRemove i u = u := by
    intro i u hu
    unfold popActivityRemove
    rw [if_neg]
    rw [hu]
    exact fun hc => Bool.noConfusion hc
  refine ⟨?_, ?_, ?_⟩
  · intro h
    rw [hfst] at h
    have hE : (popActivityRemove id t).activities.isEmpty = true := by
      rw [h]; rfl
    simp [popActivity, hE]
  · intro h
    rw [hfst] at h
    have hE := isEmpty_false_of_ne_nil h
    simp [popActivity, hE]
  · intro h3
    have h1 : (popActivity now id t).1 = t := by
      rw [hfst]; exact hempty id t h3
    have hE : (popActivityRemove id t).activities.isEmpty = true := by
      rw [hempty id t h3, h3]; rfl
    refine ⟨h1, by simp [popActivity, hE], ?_⟩
    rw [h1]
    have hE2 : (popActivityRemove id2 t).activities.isEmpty = true := by
      rw [hempty id2 t h3, h3]; rfl
    simp [popActivity, hE2]

/-- C10 (witness): two successive pops against an empty activity set each
schedule a deferred finalize. -/
theorem popActivity_scheduling_witness :
    (popActivity 3 "x" noRecTxn).2 =
      [⟨Task.idleFinish (3 + noRecTxn.idleTimeout / 1000),
        noRecTxn.idleTimeout⟩] ∧
    (popActivity 4 "y" (popActivity 3 "x" noRecTxn).1).2 =
      [⟨Task.idleFinish (4 + noRecTxn.idleTimeout / 1000),
        noRecTxn.idleTimeout⟩] :=
  ⟨((popActivity_scheduling 3 4 "x" "y" noRecTxn).2.2 rfl).2.1,
   ((popActivity_scheduling 3 4 "x" "y" noRecTxn).2.2 rfl).2.2⟩

end IdleTracing
